import Mathlib

/-!
Shallow embedding of the imgbb relay bot (src/app.py) and verification of
the frozen claims about it.  Pure functions of the source are translated
directly; the effectful parts (HTTP calls, the PIL image library, the
Telegram session store) are modelled by explicit data: each handler becomes
a function from its inputs and an environment describing the outcomes of
the external calls to the resulting session state, replies and provider
calls.  Byte buffers are `List Nat`, machine integers are `Nat`.
-/

namespace ImgbbBot

/-! ## Configuration constants (src/app.py lines 33-37) -/

def IMGBB_MAX_BYTES : Nat := 32 * 1024 * 1024

def TELEGRAPH_MAX_BYTES : Nat := 5 * 1024 * 1024

def MAX_SIDE_PX : Nat := 1600

def JPEG_QUALITY : Nat := 75

/-! ## Identifier validator (src/app.py lines 37-42)

`sanitize_id` strips surrounding whitespace and matches the stripped string
against `ID_RE = ^[A-Za-z0-9_-]{2,64}$`. -/

/-- Whitespace characters removed by Python `str.strip()` (restricted to the
ASCII whitespace characters; no claim involves exotic Unicode whitespace). -/
def pyWhitespace (c : Char) : Bool :=
  c == ' ' || c == '\t' || c == '\n' || c == '\r' || c == '\x0b' || c == '\x0c'

/-- Model of Python `str.strip()`: drop whitespace from both ends. -/
def pyStrip (s : String) : String :=
  String.mk (((s.data.dropWhile pyWhitespace).reverse.dropWhile pyWhitespace).reverse)

/-- The character class `[A-Za-z0-9_-]` of `ID_RE` (src/app.py line 37). -/
def idChar (c : Char) : Bool :=
  (decide (65 ≤ c.toNat) && decide (c.toNat ≤ 90)) ||
  (decide (97 ≤ c.toNat) && decide (c.toNat ≤ 122)) ||
  (decide (48 ≤ c.toNat) && decide (c.toNat ≤ 57)) ||
  c == '_' || c == '-'

/-- Semantics of `ID_RE.match` on an already stripped string: the anchored
regex `^[A-Za-z0-9_-]{2,64}$` matches exactly when every character is in the
class and the length lies in `[2, 64]` (after `strip` the string cannot end
in a newline, so the Python `$` subtlety is vacuous). -/
def ID_RE_match (s : String) : Bool :=
  s.data.all idChar && decide (2 ≤ s.data.length) && decide (s.data.length ≤ 64)

/-- Model of `sanitize_id` (src/app.py lines 40-42): strip, then return the
stripped string when the regex matches, `none` otherwise.  Python's
`(s or "")` guard maps a `None` argument to `""`, which is rejected, so the
model ranges over strings. -/
def sanitize_id (s : String) : Option String :=
  let t := pyStrip s
  if ID_RE_match t then some t else none

/-- Spec-side reading of the regex `[A-Za-z0-9_-]{n}`: a derivation showing
that a character list consists of `n` characters of the class, stated
independently of the executable matcher. -/
inductive CharClassRep (cls : Char → Bool) : Nat → List Char → Prop where
  | nil : CharClassRep cls 0 []
  | cons {c : Char} {n : Nat} {l : List Char} :
      cls c = true → CharClassRep cls n l → CharClassRep cls (n + 1) (c :: l)

lemma charClassRep_iff (cls : Char → Bool) (n : Nat) (l : List Char) :
    CharClassRep cls n l ↔ n = l.length ∧ l.all cls = true := by
  constructor
  · intro h
    induction h with
    | nil => simp
    | cons hc _ ih => simp [ih.1, ih.2, hc]
  · intro ⟨hn, hall⟩
    subst hn
    induction l with
    | nil => exact CharClassRep.nil
    | cons c l ih =>
      simp only [List.all_cons, Bool.and_eq_true] at hall
      exact CharClassRep.cons hall.1 (ih hall.2)

lemma ID_RE_match_iff (t : String) :
    ID_RE_match t = true ↔ ∃ n, 2 ≤ n ∧ n ≤ 64 ∧ CharClassRep idChar n t.data := by
  constructor
  · intro h
    simp only [ID_RE_match, Bool.and_eq_true, decide_eq_true_eq] at h
    exact ⟨t.data.length, h.1.2, h.2, (charClassRep_iff _ _ _).2 ⟨rfl, h.1.1⟩⟩
  · intro ⟨n, h2, h64, hrep⟩
    obtain ⟨hn, hall⟩ := (charClassRep_iff _ _ _).1 hrep
    subst hn
    simp only [ID_RE_match, Bool.and_eq_true, decide_eq_true_eq]
    exact ⟨⟨hall, h2⟩, h64⟩

/-- Claim C3: `sanitize_id` first trims surrounding whitespace and returns the
trimmed string unchanged exactly when the whole trimmed string consists of
`[A-Za-z0-9_-]` characters with length between 2 and 64; every other input
yields `none` — no partial acceptance or truncation. -/
theorem c3_sanitize_id (s : String) :
    (∀ t, sanitize_id s = some t ↔
      (t = pyStrip s ∧ ∃ n, 2 ≤ n ∧ n ≤ 64 ∧ CharClassRep idChar n (pyStrip s).data)) ∧
    (sanitize_id s = none ↔ ¬ ∃ n, 2 ≤ n ∧ n ≤ 64 ∧ CharClassRep idChar n (pyStrip s).data) := by
  unfold sanitize_id
  by_cases hm : ID_RE_match (pyStrip s) = true
  · rw [ID_RE_match_iff] at hm
    constructor
    · intro t
      simp only [ID_RE_match_iff (pyStrip s), if_pos ((ID_RE_match_iff _).2 hm)] at *
      constructor
      · intro h
        exact ⟨(Option.some_inj.1 h).symm, hm⟩
      · intro ⟨ht, _⟩
        simp [ht]
    · simp [if_pos ((ID_RE_match_iff _).2 hm), hm]
  · have hm' : ¬ ∃ n, 2 ≤ n ∧ n ≤ 64 ∧ CharClassRep idChar n (pyStrip s).data := by
      intro hc
      exact hm ((ID_RE_match_iff _).2 hc)
    rw [if_neg hm]
    constructor
    · intro t
      constructor
      · intro h
        cases h
      · intro ⟨_, hc⟩
        exact absurd hc hm'
    · simp [hm']

/-! ## Image codec model (src/app.py lines 44-80)

The PIL library is external; an image handle is modelled by its pixel
dimensions plus the resampling filter used by the most recent `resize`
(so a theorem can observe which filter a downscale applied). -/

structure PILImage where
  w : Nat
  h : Nat
  lastFilter : Option String
deriving DecidableEq

def LANCZOS : String := "LANCZOS"

/-- Model of `Image.resize((new_w, new_h), filter)`. -/
def pilResize (im : PILImage) (nw nh : Nat) (filt : String) : PILImage :=
  { w := nw, h := nh, lastFilter := some filt }

/-- Behaviour of the PIL calls inside `_open_image` on one particular byte
buffer: `opens = none` means `Image.open` raises (the bytes are not a
recognizable raster image); `loadRaises` means `im.load()` raises (the pixel
data is truncated/corrupt although the header was recognized). -/
structure PilOpenBehavior where
  opens : Option PILImage
  loadRaises : Bool
deriving DecidableEq

/-- Model of `_open_image` (src/app.py lines 44-50).  `Image.open` failures
propagate, but the `im.load()` call sits inside `try: ... except Exception:
pass`, so `loadRaises` has no effect on the result — exactly as in the
source, where a truncated image is returned partially loaded. -/
def _open_image (b : PilOpenBehavior) : Except String PILImage :=
  match b.opens with
  | none => Except.error "cannot identify image file"
  | some im => Except.ok im

/-- Model of `_downscale` (src/app.py lines 52-62).  Python computes the
short side as `int(h * (max_side / w))` in floating point; truncation of the
(here exactly represented) quotient is modelled by natural floor division
`h * max_side / w`, which coincides with the float computation at the
concrete inputs appearing in this development. -/
def _downscale (im : PILImage) (max_side : Nat) : PILImage :=
  if max im.w im.h ≤ max_side then im
  else if im.h ≤ im.w then
    pilResize im max_side (im.h * max_side / im.w) LANCZOS
  else
    pilResize im (im.w * max_side / im.h) max_side LANCZOS

/-- Rounding to the nearest integer of the fraction `num / den` (half rounds
up; used only away from ties, where it agrees with Python's `round`). -/
def roundNearest (num den : Nat) : Nat := (2 * num + den) / (2 * den)

/-- Claim C7 counterexample: bytes whose header `Image.open` recognizes but
whose pixel data is truncated/corrupt (`im.load()` raises) still yield a
usable image handle, because `_open_image` swallows the load exception; the
claim says such bytes must fail with a decode error. -/
theorem c7_counterexample :
    (PilOpenBehavior.mk (some ⟨2, 2, none⟩) true).loadRaises = true ∧
    _open_image ⟨some ⟨2, 2, none⟩, true⟩ = Except.ok ⟨2, 2, none⟩ :=
  ⟨rfl, rfl⟩

/-- Claim C7 (amended): `_open_image` fails exactly when `Image.open` cannot
identify the bytes; when the header opens but the pixel data is
truncated/corrupt, the `load` exception is suppressed and the handle is
returned as-is. -/
theorem c7_open_image (b : PilOpenBehavior) :
    (b.opens = none → ∃ e, _open_image b = Except.error e) ∧
    (∀ im, b.opens = some im → _open_image b = Except.ok im) := by
  constructor
  · intro h
    exact ⟨"cannot identify image file", by simp [_open_image, h]⟩
  · intro im h
    simp [_open_image, h]

/-- Witness for `c7_open_image` at concrete behaviours. -/
theorem c7_open_image_witness :
    (∃ e, _open_image ⟨none, false⟩ = Except.error e) ∧
    _open_image ⟨some ⟨1, 1, none⟩, true⟩ = Except.ok ⟨1, 1, none⟩ :=
  ⟨(c7_open_image ⟨none, false⟩).1 rfl,
   (c7_open_image ⟨some ⟨1, 1, none⟩, true⟩).2 ⟨1, 1, none⟩ rfl⟩

/-- Claim C8 counterexample: a 3000×2000 image downscaled to `max_side =
1600` gets short side `int(2000 * (1600 / 3000)) = 1066`, while the claim's
`round(2000 * 1600 / 3000)` is 1067 — the code truncates instead of
rounding. -/
theorem c8_counterexample :
    (_downscale ⟨3000, 2000, none⟩ 1600).h = 1066 ∧
    roundNearest (2000 * 1600) 3000 = 1067 := by decide

/-- Claim C8 (amended): when the longer side exceeds `max_side`, `_downscale`
resizes with the Lanczos filter, setting the longer side to exactly
`max_side` and the shorter side to the floor `⌊short * max_side / long⌋`
(Python `int` truncation, not `round`); otherwise the image is returned
unchanged. -/
theorem c8_downscale (im : PILImage) (max_side : Nat) :
    (max im.w im.h ≤ max_side → _downscale im max_side = im) ∧
    (max_side < max im.w im.h →
      (im.h ≤ im.w →
        _downscale im max_side = ⟨max_side, im.h * max_side / im.w, some LANCZOS⟩) ∧
      (im.w < im.h →
        _downscale im max_side = ⟨im.w * max_side / im.h, max_side, some LANCZOS⟩) ∧
      max (_downscale im max_side).w (_downscale im max_side).h = max_side) := by
  refine ⟨fun hle => by simp [_downscale, hle], fun hgt => ?_⟩
  have hnot : ¬ max im.w im.h ≤ max_side := Nat.not_le.2 hgt
  have hmain1 : im.h ≤ im.w →
      _downscale im max_side = ⟨max_side, im.h * max_side / im.w, some LANCZOS⟩ := by
    intro hwh
    unfold _downscale pilResize
    rw [if_neg hnot, if_pos hwh]
  have hmain2 : im.w < im.h →
      _downscale im max_side = ⟨im.w * max_side / im.h, max_side, some LANCZOS⟩ := by
    intro hhw
    unfold _downscale pilResize
    rw [if_neg hnot, if_neg (Nat.not_le.2 hhw)]
  refine ⟨hmain1, hmain2, ?_⟩
  by_cases hwh : im.h ≤ im.w
  · have hws : max_side < im.w := by
      have := hgt
      rw [max_eq_left hwh] at this
      exact this
    have hshort : im.h * max_side / im.w ≤ max_side := by
      calc im.h * max_side / im.w ≤ im.w * max_side / im.w :=
            Nat.div_le_div_right (Nat.mul_le_mul_right _ hwh)
        _ = max_side := Nat.mul_div_cancel_left _ (by omega)
    rw [hmain1 hwh]
    exact max_eq_left hshort
  · have hhw := Nat.not_le.1 hwh
    have hhs : max_side < im.h := by
      have := hgt
      rw [max_eq_right (Nat.le_of_lt hhw)] at this
      exact this
    have hshort : im.w * max_side / im.h ≤ max_side := by
      calc im.w * max_side / im.h ≤ im.h * max_side / im.h :=
            Nat.div_le_div_right (Nat.mul_le_mul_right _ (Nat.le_of_lt hhw))
        _ = max_side := Nat.mul_div_cancel_left _ (by omega)
    rw [hmain2 hhw]
    exact max_eq_right hshort

/-- Witness for `c8_downscale`: the 3000×2000 image at `max_side = 1600`. -/
theorem c8_downscale_witness :
    _downscale ⟨3000, 2000, none⟩ 1600 = ⟨1600, 1066, some LANCZOS⟩ := by
  have h := ((c8_downscale ⟨3000, 2000, none⟩ 1600).2 (by decide)).1 (by decide)
  rw [h]
  decide

/-! ## Size-fit strategy (src/app.py lines 152-167)

`encode_jpeg` and `encode_png` re-encode the pending bytes through PIL; the
spec (4.2) requires the encoders to be deterministic functions of
`(input bytes, format, max_side, quality)`, so for a fixed input they are
modelled as functions `encJ : max_side → quality → bytes` and
`encP : max_side → bytes`. -/

/-- The `for q in (70, 65, 60, 55)` loop of `fit_under_telegraph_limit`:
re-encode at `max_side = 1400` with decreasing quality, returning the first
encoding that fits (flag `true`); when none fits, return the last encoding
produced together with flag `false` — mirroring the Python loop variable
`jpeg` that keeps its final value after the loop. -/
def tryQualities (encJ : Nat → Nat → List Nat) : List Nat → List Nat → List Nat × Bool
  | lastJpeg, [] => (lastJpeg, false)
  | _lastJpeg, q :: qs =>
    let j := encJ 1400 q
    if j.length ≤ TELEGRAPH_MAX_BYTES then (j, true) else tryQualities encJ j qs

/-- Model of `fit_under_telegraph_limit` (src/app.py lines 152-167): first
JPEG at `(MAX_SIDE_PX, JPEG_QUALITY)`, then the quality ladder, then PNG at
`max_side = 1200`; when even the PNG is too large the function falls back to
returning the last JPEG — it has no `None` result. -/
def fit_under_telegraph_limit (encJ : Nat → Nat → List Nat) (encP : Nat → List Nat) :
    List Nat × String :=
  let jpeg := encJ MAX_SIDE_PX JPEG_QUALITY
  if jpeg.length ≤ TELEGRAPH_MAX_BYTES then (jpeg, "jpg")
  else
    match tryQualities encJ jpeg [70, 65, 60, 55] with
    | (j, true) => (j, "jpg")
    | (j, false) =>
      let png := encP 1200
      if png.length ≤ TELEGRAPH_MAX_BYTES then (png, "png") else (j, "jpg")

lemma tryQualities_all_oversized (encJ : Nat → Nat → List Nat) (qs : List Nat)
    (h : ∀ q ∈ qs, TELEGRAPH_MAX_BYTES < (encJ 1400 q).length) :
    ∀ lastJpeg, tryQualities encJ lastJpeg qs
      = (qs.foldl (fun _ q => encJ 1400 q) lastJpeg, false) := by
  induction qs with
  | nil => intro lastJpeg; rfl
  | cons q qs ih =>
    intro lastJpeg
    have hq := h q (List.mem_cons_self q qs)
    have hqs : ∀ q' ∈ qs, TELEGRAPH_MAX_BYTES < (encJ 1400 q').length :=
      fun q' hq' => h q' (List.mem_cons_of_mem q hq')
    simp only [tryQualities, if_neg (Nat.not_le.2 hq)]
    rw [ih hqs (encJ 1400 q), List.foldl_cons]

lemma fit_all_oversized (encJ : Nat → Nat → List Nat) (encP : Nat → List Nat)
    (h0 : TELEGRAPH_MAX_BYTES < (encJ MAX_SIDE_PX JPEG_QUALITY).length)
    (h1 : ∀ q ∈ [70, 65, 60, 55], TELEGRAPH_MAX_BYTES < (encJ 1400 q).length)
    (h2 : TELEGRAPH_MAX_BYTES < (encP 1200).length) :
    fit_under_telegraph_limit encJ encP = (encJ 1400 55, "jpg") := by
  unfold fit_under_telegraph_limit
  rw [if_neg (Nat.not_le.2 h0), tryQualities_all_oversized encJ _ h1]
  simp only [List.foldl_cons, List.foldl_nil]
  rw [if_neg (Nat.not_le.2 h2)]

/-- A concrete byte buffer one byte over the Telegraph ceiling. -/
def bigBytes : List Nat := List.replicate (TELEGRAPH_MAX_BYTES + 1) 0

lemma bigBytes_length : bigBytes.length = TELEGRAPH_MAX_BYTES + 1 := by
  simp [bigBytes]

/-- Claim C4 counterexample: with encoders whose every candidate exceeds the
5 MiB ceiling, `fit_under_telegraph_limit` does not return a no-fit marker —
it hands back the (oversized) final JPEG candidate.  The claim says every
such source must yield `None` and never an encoding above the limit. -/
theorem c4_counterexample :
    fit_under_telegraph_limit (fun _ _ => bigBytes) (fun _ => bigBytes)
      = (bigBytes, "jpg") ∧
    TELEGRAPH_MAX_BYTES < bigBytes.length := by
  have hlen : TELEGRAPH_MAX_BYTES < bigBytes.length := by
    rw [bigBytes_length]; omega
  exact ⟨fit_all_oversized _ _ hlen (fun q _ => hlen) hlen, hlen⟩

/-- Claim C4 (amended): when every candidate encoding exceeds the Telegraph
byte ceiling, `fit_under_telegraph_limit` returns the final JPEG candidate
`encode_jpeg(max_side=1400, quality=55)` tagged `"jpg"`, which still exceeds
the ceiling; the caller `handle_id` re-checks the length and raises before
any network call, so the oversized payload is still never submitted (claim
C1's theorem). -/
theorem c4_fit_no_candidate (encJ : Nat → Nat → List Nat) (encP : Nat → List Nat)
    (h0 : TELEGRAPH_MAX_BYTES < (encJ MAX_SIDE_PX JPEG_QUALITY).length)
    (h1 : ∀ q ∈ [70, 65, 60, 55], TELEGRAPH_MAX_BYTES < (encJ 1400 q).length)
    (h2 : TELEGRAPH_MAX_BYTES < (encP 1200).length) :
    fit_under_telegraph_limit encJ encP = (encJ 1400 55, "jpg") ∧
    TELEGRAPH_MAX_BYTES < (fit_under_telegraph_limit encJ encP).1.length := by
  have hfit := fit_all_oversized encJ encP h0 h1 h2
  refine ⟨hfit, ?_⟩
  rw [hfit]
  exact h1 55 (by simp)

/-- Witness for `c4_fit_no_candidate` at the concrete oversized encoders. -/
theorem c4_fit_no_candidate_witness :
    fit_under_telegraph_limit (fun _ _ => List.replicate (TELEGRAPH_MAX_BYTES + 1) 1)
        (fun _ => List.replicate (TELEGRAPH_MAX_BYTES + 1) 1)
      = (List.replicate (TELEGRAPH_MAX_BYTES + 1) 1, "jpg") ∧
    TELEGRAPH_MAX_BYTES <
      (fit_under_telegraph_limit (fun _ _ => List.replicate (TELEGRAPH_MAX_BYTES + 1) 1)
        (fun _ => List.replicate (TELEGRAPH_MAX_BYTES + 1) 1)).1.length :=
  c4_fit_no_candidate _ _ (by simp) (fun q _ => by simp) (by simp)

/-! ## imgbb upload client (src/app.py lines 83-102) -/

/-- Substring containment, modelling Python's `code in msg`. -/
def containsSub (s pat : String) : Bool :=
  (List.range (s.data.length + 1)).any (fun i => pat.data.isPrefixOf (s.data.drop i))

/-- The `data` object of a successful imgbb response (only the two fields
`handle_id` reads). -/
structure ImgbbData where
  url : Option String
  size : Option Nat
deriving DecidableEq

/-- Python `str(...)` on an optional string, as used in f-string
interpolation of a value that may be `None`. -/
def pyStrOption : Option String → String
  | some s => s
  | none => "None"

/-- One HTTP exchange with imgbb, abstracting the network: the status code,
whether the body parses as JSON, the truthiness of the `success` flag, the
rendering of the `error` object when present and truthy, the rendering of
the whole payload, the raw body text, and the `data` object. -/
structure ImgbbHttpResponse where
  status : Nat
  parsesAsJson : Bool
  success : Bool
  errorRendered : Option String
  payloadRendered : String
  rawText : String
  dataField : ImgbbData
deriving DecidableEq

/-- Model of one attempt `upload_to_imgbb` (src/app.py lines 83-102) as a
function of the response: a non-JSON body raises a message containing
`"не-JSON"` and the first 200 characters of the body; a non-200 status or a
falsy `success` flag raises `"Ошибка imgbb: "` followed by the rendered
`error` object (or the whole payload when the error object is absent or
falsy) — note the status code itself is not part of the message; otherwise
the `data` object is returned. -/
def upload_to_imgbb (r : ImgbbHttpResponse) : Except String ImgbbData :=
  if r.parsesAsJson = false then
    Except.error ("imgbb вернул не-JSON. Ответ: " ++ String.mk (r.rawText.data.take 200))
  else if r.status ≠ 200 ∨ r.success = false then
    Except.error ("Ошибка imgbb: " ++
      (match r.errorRendered with
       | some e => e
       | none => r.payloadRendered))
  else Except.ok r.dataField

/-! ## Retry orchestrator (src/app.py lines 104-122) -/

/-- The retryability test of src/app.py line 116: substring search in the
error message for a gateway status code, the non-JSON marker, or an
aiohttp client-exception name. -/
def retryable (msg : String) : Bool :=
  containsSub msg "504" || containsSub msg "503" || containsSub msg "502" ||
  containsSub msg "500" || containsSub msg "429" ||
  containsSub msg "не-JSON" || containsSub msg "Client"

/-- The terminal error of `upload_with_retries_imgbb` (src/app.py line 122),
wrapping the last observed exception (Python renders a never-assigned
`last_exc` as `None`). -/
def finalImgbbError (max_attempts : Nat) (last_exc : Option String) : String :=
  "IMGBB отказал после " ++ toString max_attempts ++ " попыток: " ++ pyStrOption last_exc

/-- The `while attempt < max_attempts` loop of `upload_with_retries_imgbb`
(src/app.py lines 106-121), with `fuel = max_attempts - attempt` making the
loop condition structural.  `op i` is the outcome of `upload_to_imgbb` on
attempt number `i` (1-based).  The result records the final value, the
number of attempts performed, and the list of back-off sleeps
(`sleep_s = 2 * attempt`) executed between attempts. -/
def retryLoop (op : Nat → Except String ImgbbData) (max_attempts : Nat) :
    Nat → Nat → Option String → Except String ImgbbData × Nat × List Nat
  | 0, attempt, last_exc =>
    (Except.error (finalImgbbError max_attempts last_exc), attempt, [])
  | fuel + 1, attempt, _last_exc =>
    match op (attempt + 1) with
    | Except.ok r => (Except.ok r, attempt + 1, [])
    | Except.error e =>
      if max_attempts ≤ attempt + 1 ∨ retryable e = false then
        (Except.error (finalImgbbError max_attempts (some e)), attempt + 1, [])
      else
        let r := retryLoop op max_attempts fuel (attempt + 1) (some e)
        (r.1, r.2.1, 2 * (attempt + 1) :: r.2.2)

/-- Model of `upload_with_retries_imgbb` (src/app.py lines 104-122): run the
loop from `attempt = 0`, `last_exc = None`. -/
def upload_with_retries_imgbb (op : Nat → Except String ImgbbData) (max_attempts : Nat) :
    Except String ImgbbData × Nat × List Nat :=
  retryLoop op max_attempts max_attempts 0 none

lemma retryLoop_all_retryable (op : Nat → Except String ImgbbData) (errs : Nat → String)
    (m : Nat)
    (hop : ∀ i, 1 ≤ i → i ≤ m → op i = Except.error (errs i))
    (hre : ∀ i, 1 ≤ i → i ≤ m → retryable (errs i) = true) :
    ∀ fuel attempt last_exc, attempt + fuel = m → 1 ≤ fuel →
      retryLoop op m fuel attempt last_exc
        = (Except.error (finalImgbbError m (some (errs m))), m,
           (List.range' (attempt + 1) (fuel - 1)).map (fun i => 2 * i)) := by
  intro fuel
  induction fuel with
  | zero => intro attempt last_exc _ h1; cases h1
  | succ f ih =>
    intro attempt last_exc hsum _
    have ha1 : 1 ≤ attempt + 1 := Nat.le_add_left 1 attempt
    have ham : attempt + 1 ≤ m := by omega
    simp only [retryLoop, hop (attempt + 1) ha1 ham]
    by_cases hf : f = 0
    · subst hf
      have hm : attempt + 1 = m := by omega
      rw [if_pos (Or.inl (Nat.le_of_eq hm.symm))]
      simp [hm]
    · obtain ⟨g, rfl⟩ : ∃ g, f = g + 1 := ⟨f - 1, by omega⟩
      have hlt : ¬ (m ≤ attempt + 1 ∨ retryable (errs (attempt + 1)) = false) := by
        push_neg
        refine ⟨by omega, ?_⟩
        simp [hre (attempt + 1) ha1 ham]
      rw [if_neg hlt]
      have hrec := ih (attempt + 1) (some (errs (attempt + 1))) (by omega) (by omega)
      rw [hrec]
      simp only [Nat.add_sub_cancel]
      rw [List.range'_succ]
      simp

/-- Claim C5: when every attempt fails with a retryable error,
`upload_with_retries_imgbb` performs exactly `max_attempts` attempts, then
fails with a terminal error wrapping the last observed error; the sleep
before retry number `k+2` is `2 * (k+1)` seconds (linear back-off 2, 4, …),
so the delays are non-decreasing. -/
theorem c5_retry_exhaustion (op : Nat → Except String ImgbbData) (errs : Nat → String)
    (m : Nat) (hm : 1 ≤ m)
    (hop : ∀ i, 1 ≤ i → i ≤ m → op i = Except.error (errs i))
    (hre : ∀ i, 1 ≤ i → i ≤ m → retryable (errs i) = true) :
    (upload_with_retries_imgbb op m).2.1 = m ∧
    (upload_with_retries_imgbb op m).1 = Except.error (finalImgbbError m (some (errs m))) ∧
    (upload_with_retries_imgbb op m).2.2.length = m - 1 ∧
    (∀ k, k < m - 1 → (upload_with_retries_imgbb op m).2.2[k]? = some (2 * (k + 1))) ∧
    List.Chain' (fun a b => a ≤ b) (upload_with_retries_imgbb op m).2.2 := by
  have h := retryLoop_all_retryable op errs m hop hre m 0 none (by omega) hm
  unfold upload_with_retries_imgbb
  rw [h]
  refine ⟨rfl, rfl, by simp, ?_, ?_⟩
  · intro k hk
    have heq : (0 + 1) + 1 * k = k + 1 := by omega
    rw [List.getElem?_map, List.getElem?_range' (0 + 1) 1 hk, heq]
    rfl
  · apply List.Pairwise.chain'
    rw [List.pairwise_map]
    exact (List.pairwise_le_range' (0 + 1) (m - 1) 1).imp (fun h => by omega)

/-- Witness for `c5_retry_exhaustion`: an operation that always fails with
the retryable message `"503"`, two attempts. -/
theorem c5_witness :
    (upload_with_retries_imgbb (fun _ => Except.error "503") 2).2.1 = 2 ∧
    (upload_with_retries_imgbb (fun _ => Except.error "503") 2).1
      = Except.error (finalImgbbError 2 (some "503")) ∧
    (upload_with_retries_imgbb (fun _ => Except.error "503") 2).2.2.length = 2 - 1 ∧
    (∀ k, k < 2 - 1 →
      (upload_with_retries_imgbb (fun _ => Except.error "503") 2).2.2[k]?
        = some (2 * (k + 1))) ∧
    List.Chain' (fun a b => a ≤ b)
      (upload_with_retries_imgbb (fun _ => Except.error "503") 2).2.2 :=
  c5_retry_exhaustion (fun _ => Except.error "503") (fun _ => "503") 2 (by omega)
    (fun _ _ _ => rfl) (fun _ _ _ => (by decide : retryable "503" = true))

/-- A 503 response whose JSON body reports failure without mentioning the
status code anywhere in its error object. -/
def resp503 : ImgbbHttpResponse :=
  { status := 503
    parsesAsJson := true
    success := false
    errorRendered := some "Service temporarily unavailable"
    payloadRendered := ""
    rawText := ""
    dataField := ⟨none, none⟩ }

/-- Claim C6 counterexample: a 5xx failure (HTTP 503 with a JSON error body
that does not mention the status) is not retried — the wrapper stops after a
single attempt although `max_attempts = 2` — because retryability is decided
by substring search in the exception message, and `upload_to_imgbb` does not
put the status code into that message. -/
theorem c6_counterexample :
    resp503.status = 503 ∧ (1 : Nat) < 2 ∧
    (upload_with_retries_imgbb (fun _ => upload_to_imgbb resp503) 2).2.1 = 1 := by
  refine ⟨rfl, by omega, ?_⟩
  decide

/-- Claim C6 (amended): the wrapper retries exactly when the exception
message passes the substring test `retryable` (one of `"504"`, `"503"`,
`"502"`, `"500"`, `"429"`, `"не-JSON"`, `"Client"` occurs in it); any failure
whose message lacks all of these — including a 5xx response whose JSON body
does not mention its status, since the status never enters the message —
propagates after the first occurrence with no further attempt, while a
retryable first failure leads to a second attempt whenever
`max_attempts ≥ 2`. -/
theorem c6_retry_classification (op : Nat → Except String ImgbbData) (m : Nat) (e : String)
    (hm : 1 ≤ m) (h1 : op 1 = Except.error e) :
    (retryable e = false →
      upload_with_retries_imgbb op m
        = (Except.error (finalImgbbError m (some e)), 1, [])) ∧
    (retryable e = true → 2 ≤ m → 2 ≤ (upload_with_retries_imgbb op m).2.1) := by
  obtain ⟨f, hf⟩ : ∃ f, m = f + 1 := ⟨m - 1, by omega⟩
  subst hf
  constructor
  · intro hnr
    unfold upload_with_retries_imgbb
    simp only [retryLoop, h1]
    rw [if_pos (Or.inr hnr)]
  · intro hr h2
    unfold upload_with_retries_imgbb
    simp only [retryLoop, h1]
    have hcond : ¬ (f + 1 ≤ 0 + 1 ∨ retryable e = false) := by
      push_neg
      exact ⟨by omega, by simp [hr]⟩
    rw [if_neg hcond]
    have hge : ∀ fuel attempt last_exc,
        attempt ≤ (retryLoop op (f + 1) fuel attempt last_exc).2.1 := by
      intro fuel
      induction fuel with
      | zero => intro attempt last_exc; exact Nat.le_refl _
      | succ f' ih =>
        intro attempt last_exc
        simp only [retryLoop]
        cases hop : op (attempt + 1) with
        | ok r => dsimp only; omega
        | error e' =>
          dsimp only
          by_cases hc : f + 1 ≤ attempt + 1 ∨ retryable e' = false
          · rw [if_pos hc]
            dsimp only
            omega
          · rw [if_neg hc]
            dsimp only
            exact Nat.le_of_succ_le (ih (attempt + 1) (some e'))
    have hge1 : ∀ fuel attempt last_exc, 1 ≤ fuel →
        attempt + 1 ≤ (retryLoop op (f + 1) fuel attempt last_exc).2.1 := by
      intro fuel attempt last_exc hfuel
      obtain ⟨g, rfl⟩ : ∃ g, fuel = g + 1 := ⟨fuel - 1, by omega⟩
      simp only [retryLoop]
      cases hop : op (attempt + 1) with
      | ok r => dsimp only; omega
      | error e' =>
        dsimp only
        by_cases hc : f + 1 ≤ attempt + 1 ∨ retryable e' = false
        · rw [if_pos hc]
        · rw [if_neg hc]
          dsimp only
          exact hge g (attempt + 1) (some e')
    exact hge1 f 1 (some e) (by omega)

/-- Witness for `c6_retry_classification`: an operation failing with the
non-retryable message `"x"` under two permitted attempts stops after one. -/
theorem c6_witness :
    upload_with_retries_imgbb (fun _ => Except.error "x") 2
      = (Except.error (finalImgbbError 2 (some "x")), 1, []) :=
  (c6_retry_classification (fun _ => Except.error "x") 2 "x" (by omega) rfl).1 (by decide)

/-! ## Telegraph upload client (src/app.py lines 125-150)

The multipart form built by `upload_to_telegraph` names the uploaded part
with the constant stem `file`: `filename=f"file.{ext}"`. -/

/-- The multipart filename submitted by `upload_to_telegraph`
(src/app.py line 134). -/
def upload_to_telegraph_filename (ext : String) : String := "file." ++ ext

/-- The multipart content type submitted by `upload_to_telegraph`
(src/app.py line 135). -/
def upload_to_telegraph_content_type (ext : String) : String :=
  "image/" ++ (if ext = "jpg" then "jpeg" else ext)

/-! ## Upload orchestrator `handle_id` (src/app.py lines 206-253)

The handler is modelled as a function from the session's pending buffer, the
incoming text, and an environment recording the outcomes of the external
calls, to the resulting session state, the replies sent, and the provider
calls submitted. -/

/-- A call the orchestrator submits to an upload client: the payload bytes
and, for imgbb, the `name` form field `f"{the_id}.jpg"`; for Telegraph, the
multipart filename built inside `upload_to_telegraph`. -/
inductive ProviderCall where
  | imgbb (payload : List Nat) (name : String)
  | telegraph (payload : List Nat) (filename : String)
deriving DecidableEq

/-- Outcomes of the external operations `handle_id` may perform, for one
fixed pending buffer: the JPEG encoding of the pending bytes (`error` =
exception from PIL), the result of the retry-wrapped imgbb upload, the
result of `fit_under_telegraph_limit` on the pending bytes (`error` =
exception raised by an encoder inside it), and the Telegraph HTTP exchange
(`ok` = the returned URL). -/
structure HandleEnv where
  encodeJpegResult : Except String (List Nat)
  imgbbResult : Except String ImgbbData
  fitResult : Except String (List Nat × String)
  telegraphResult : Except String String

/-- The observable outcome of one `handle_id` invocation: the new value of
`context.user_data["pending_image"]`, the replies sent, and the provider
calls submitted, in order. -/
structure HandleOutcome where
  pending : Option (List Nat)
  replies : List String
  calls : List ProviderCall
deriving DecidableEq

/-- Python truthiness of the pending slot: absent or empty bytes are falsy
(src/app.py lines 211-213, `if not pending: return`). -/
def pendingFalsy : Option (List Nat) → Bool
  | none => true
  | some b => b.isEmpty

def invalidIdReply : String :=
  "❌ Некорректный ID. Разрешены буквы/цифры/`_`/`-` (2–64 символа)."

def loadingReply : String := "Загружаю…"

/-- The success reply of the imgbb branch (src/app.py lines 231-234); the
`size` field is included only when truthy. -/
def imgbbSuccessReply (the_id : String) (d : ImgbbData) : String :=
  let base := "✅ IMGBB\nПрямая ссылка: " ++ pyStrOption d.url ++ "\nФайл: " ++ the_id ++ ".jpg"
  match d.size with
  | some n => if n ≠ 0 then base ++ "\nРазмер: " ++ toString n ++ " байт" else base
  | none => base

/-- The success reply of the Telegraph branch (src/app.py lines 246-249):
the identifier is appended to the URL as a `?code=` query and shown in the
reply text — it is not the submitted filename. -/
def telegraphSuccessReply (the_id t_url ext : String) : String :=
  "✅ Telegraph (фоллбэк)\nПрямая ссылка: " ++ t_url ++ "?code=" ++ the_id ++
    "\nФайл: " ++ the_id ++ "." ++ ext

def finalFailureReply (e : String) : String :=
  "❌ Не удалось загрузить ни в imgbb, ни в Telegraph: " ++ e

def oversizedFitError : String := "Не удалось ужать файл до 5 МБ для Telegraph"

/-- The Telegraph fallback block of `handle_id` (src/app.py lines 240-253):
run `fit_under_telegraph_limit`, fail terminally if the result still exceeds
5 MiB, otherwise submit it to Telegraph with the `file.<ext>` multipart
filename; every completion of this block clears the pending buffer. -/
def handle_id_fallback (env : HandleEnv) (the_id : String) (replies : List String)
    (calls : List ProviderCall) : HandleOutcome :=
  match env.fitResult with
  | Except.error e => ⟨none, replies ++ [finalFailureReply e], calls⟩
  | Except.ok (fitted, ext) =>
    if TELEGRAPH_MAX_BYTES < fitted.length then
      ⟨none, replies ++ [finalFailureReply oversizedFitError], calls⟩
    else
      match env.telegraphResult with
      | Except.ok t_url =>
        ⟨none, replies ++ [telegraphSuccessReply the_id t_url ext],
         calls ++ [ProviderCall.telegraph fitted (upload_to_telegraph_filename ext)]⟩
      | Except.error e =>
        ⟨none, replies ++ [finalFailureReply e],
         calls ++ [ProviderCall.telegraph fitted (upload_to_telegraph_filename ext)]⟩

/-- Model of `handle_id` (src/app.py lines 206-253).  A falsy pending slot
returns silently; an invalid identifier replies with an error and keeps the
pending buffer; otherwise the handler announces the upload, encodes a JPEG,
checks it against the 32 MiB imgbb ceiling before submitting (an oversized
encoding raises into the fallback path without a call), and on any primary
failure runs the Telegraph fallback block. -/
def handle_id (env : HandleEnv) (pending? : Option (List Nat)) (text : String) :
    HandleOutcome :=
  if pendingFalsy pending? then ⟨pending?, [], []⟩
  else
    match sanitize_id text with
    | none => ⟨pending?, [invalidIdReply], []⟩
    | some the_id =>
      let replies := [loadingReply]
      match env.encodeJpegResult with
      | Except.error _ => handle_id_fallback env the_id replies []
      | Except.ok jpeg_bytes =>
        if IMGBB_MAX_BYTES < jpeg_bytes.length then
          handle_id_fallback env the_id replies []
        else
          let call := ProviderCall.imgbb jpeg_bytes (the_id ++ ".jpg")
          match env.imgbbResult with
          | Except.ok d =>
            ⟨none, replies ++ [imgbbSuccessReply the_id d], [call]⟩
          | Except.error _ => handle_id_fallback env the_id replies [call]

/-- The byte ceiling a submitted payload must respect, per destination. -/
def callWithinLimit : ProviderCall → Prop
  | ProviderCall.imgbb p _ => p.length ≤ IMGBB_MAX_BYTES
  | ProviderCall.telegraph p _ => p.length ≤ TELEGRAPH_MAX_BYTES

lemma handle_id_fallback_calls (env : HandleEnv) (the_id : String)
    (replies : List String) (calls : List ProviderCall) (c : ProviderCall)
    (hc : c ∈ (handle_id_fallback env the_id replies calls).calls) :
    c ∈ calls ∨
    ∃ fitted ext, env.fitResult = Except.ok (fitted, ext) ∧
      fitted.length ≤ TELEGRAPH_MAX_BYTES ∧
      c = ProviderCall.telegraph fitted (upload_to_telegraph_filename ext) := by
  unfold handle_id_fallback at hc
  cases hfit : env.fitResult with
  | error e => rw [hfit] at hc; exact Or.inl hc
  | ok pr =>
    obtain ⟨fitted, ext⟩ := pr
    rw [hfit] at hc
    dsimp only at hc
    by_cases hlen : TELEGRAPH_MAX_BYTES < fitted.length
    · rw [if_pos hlen] at hc
      exact Or.inl hc
    · rw [if_neg hlen] at hc
      cases ht : env.telegraphResult with
      | ok t_url =>
        rw [ht] at hc
        dsimp only at hc
        rcases List.mem_append.1 hc with h | h
        · exact Or.inl h
        · refine Or.inr ⟨fitted, ext, rfl, Nat.not_lt.1 hlen, ?_⟩
          simpa using h
      | error e =>
        rw [ht] at hc
        dsimp only at hc
        rcases List.mem_append.1 hc with h | h
        · exact Or.inl h
        · refine Or.inr ⟨fitted, ext, rfl, Nat.not_lt.1 hlen, ?_⟩
          simpa using h

/-- Claim C1: every payload the orchestrator submits respects the
destination's byte ceiling — an imgbb call carries at most
`IMGBB_MAX_BYTES` (32 MiB) and a Telegraph call at most
`TELEGRAPH_MAX_BYTES` (5 MiB); an oversized encoding is diverted to the
failure path before any call is recorded. -/
theorem c1_payloads_within_limits (env : HandleEnv) (pending? : Option (List Nat))
    (text : String) (c : ProviderCall)
    (hc : c ∈ (handle_id env pending? text).calls) :
    callWithinLimit c := by
  unfold handle_id at hc
  by_cases hp : pendingFalsy pending? = true
  · rw [if_pos hp] at hc
    cases hc
  · rw [if_neg hp] at hc
    cases hid : sanitize_id text with
    | none =>
      rw [hid] at hc
      simp at hc
    | some the_id =>
      rw [hid] at hc
      dsimp only at hc
      have hfall : ∀ calls₀, (∀ c₀ ∈ calls₀, callWithinLimit c₀) →
          c ∈ (handle_id_fallback env the_id [loadingReply] calls₀).calls →
          callWithinLimit c := by
        intro calls₀ hall hmem
        rcases handle_id_fallback_calls env the_id [loadingReply] calls₀ c hmem with
          h | ⟨fitted, ext, _, hlen, rfl⟩
        · exact hall c h
        · exact hlen
      cases henc : env.encodeJpegResult with
      | error e =>
        rw [henc] at hc
        exact hfall [] (by simp) hc
      | ok jpeg_bytes =>
        rw [henc] at hc
        dsimp only at hc
        by_cases hbig : IMGBB_MAX_BYTES < jpeg_bytes.length
        · rw [if_pos hbig] at hc
          exact hfall [] (by simp) hc
        · rw [if_neg hbig] at hc
          cases hup : env.imgbbResult with
          | ok d =>
            rw [hup] at hc
            simp at hc
            subst hc
            exact Nat.not_lt.1 hbig
          | error e =>
            rw [hup] at hc
            refine hfall [ProviderCall.imgbb jpeg_bytes (the_id ++ ".jpg")] ?_ hc
            intro c₀ hc₀
            simp at hc₀
            subst hc₀
            exact Nat.not_lt.1 hbig

/-- An environment in which the primary upload succeeds. -/
def envOkImgbb : HandleEnv :=
  { encodeJpegResult := Except.ok [7]
    imgbbResult := Except.ok ⟨some "https://i.ibb.co/x.jpg", some 1⟩
    fitResult := Except.ok ([7], "jpg")
    telegraphResult := Except.ok "https://telegra.ph/file/x.jpg" }

/-- Witness for `c1_payloads_within_limits`: the concrete imgbb call made on
a successful primary upload satisfies its ceiling. -/
theorem c1_witness :
    callWithinLimit (ProviderCall.imgbb [7] ("UZ001450" ++ ".jpg")) :=
  c1_payloads_within_limits envOkImgbb (some [1]) "UZ001450"
    (ProviderCall.imgbb [7] ("UZ001450" ++ ".jpg")) (by decide)

/-- An environment in which JPEG encoding for imgbb raises, forcing the
Telegraph fallback, whose upload succeeds. -/
def envFallback : HandleEnv :=
  { encodeJpegResult := Except.error "encode failed"
    imgbbResult := Except.error "unused"
    fitResult := Except.ok ([7], "jpg")
    telegraphResult := Except.ok "https://telegra.ph/file/abcd.jpg" }

/-- Claim C2 counterexample: the fallback upload for identifier `UZ001450`
is submitted with multipart filename `file.jpg`, not `UZ001450.jpg` — the
identifier does not reach the Telegraph filename. -/
theorem c2_counterexample :
    (handle_id envFallback (some [1]) "UZ001450").calls
      = [ProviderCall.telegraph [7] "file.jpg"] ∧
    "file.jpg" ≠ "UZ001450" ++ ".jpg" := by
  constructor
  · decide
  · decide

/-- Claim C2 (amended): for an accepted upload, the primary (imgbb) payload
is submitted with name `<identifier>.jpg`, but the fallback (Telegraph)
payload is submitted with the constant multipart filename `file.<ext>` for
the extension chosen by the size-fit step; the identifier appears only in
the reply text and in the `?code=<identifier>` suffix of the returned URL. -/
theorem c2_filenames (env : HandleEnv) (pending? : Option (List Nat))
    (text the_id : String) (hid : sanitize_id text = some the_id) :
    (∀ p n, ProviderCall.imgbb p n ∈ (handle_id env pending? text).calls →
      n = the_id ++ ".jpg") ∧
    (∀ p f, ProviderCall.telegraph p f ∈ (handle_id env pending? text).calls →
      ∃ fitted ext, env.fitResult = Except.ok (fitted, ext) ∧
        f = upload_to_telegraph_filename ext) := by
  have hfall : ∀ calls₀ c, c ∈ (handle_id_fallback env the_id [loadingReply] calls₀).calls →
      c ∈ calls₀ ∨
      ∃ fitted ext, env.fitResult = Except.ok (fitted, ext) ∧
        c = ProviderCall.telegraph fitted (upload_to_telegraph_filename ext) := by
    intro calls₀ c hmem
    rcases handle_id_fallback_calls env the_id [loadingReply] calls₀ c hmem with
      h | ⟨fitted, ext, hfit, _, rfl⟩
    · exact Or.inl h
    · exact Or.inr ⟨fitted, ext, hfit, rfl⟩
  constructor
  · intro p n hmem
    unfold handle_id at hmem
    by_cases hp : pendingFalsy pending? = true
    · rw [if_pos hp] at hmem; cases hmem
    · rw [if_neg hp, hid] at hmem
      dsimp only at hmem
      cases henc : env.encodeJpegResult with
      | error e =>
        rw [henc] at hmem
        rcases hfall [] _ hmem with h | ⟨_, _, _, h⟩
        · cases h
        · cases h
      | ok jpeg_bytes =>
        rw [henc] at hmem
        dsimp only at hmem
        by_cases hbig : IMGBB_MAX_BYTES < jpeg_bytes.length
        · rw [if_pos hbig] at hmem
          rcases hfall [] _ hmem with h | ⟨_, _, _, h⟩
          · cases h
          · cases h
        · rw [if_neg hbig] at hmem
          cases hup : env.imgbbResult with
          | ok d =>
            rw [hup] at hmem
            simp at hmem
            exact hmem.2
          | error e =>
            rw [hup] at hmem
            rcases hfall [ProviderCall.imgbb jpeg_bytes (the_id ++ ".jpg")] _ hmem with
              h | ⟨_, _, _, h⟩
            · simp at h
              exact h.2
            · cases h
  · intro p f hmem
    unfold handle_id at hmem
    by_cases hp : pendingFalsy pending? = true
    · rw [if_pos hp] at hmem; cases hmem
    · rw [if_neg hp, hid] at hmem
      dsimp only at hmem
      cases henc : env.encodeJpegResult with
      | error e =>
        rw [henc] at hmem
        rcases hfall [] _ hmem with h | ⟨fitted, ext, hfit, h⟩
        · cases h
        · injection h with h1 h2
          exact ⟨fitted, ext, hfit, h2⟩
      | ok jpeg_bytes =>
        rw [henc] at hmem
        dsimp only at hmem
        by_cases hbig : IMGBB_MAX_BYTES < jpeg_bytes.length
        · rw [if_pos hbig] at hmem
          rcases hfall [] _ hmem with h | ⟨fitted, ext, hfit, h⟩
          · cases h
          · injection h with h1 h2
            exact ⟨fitted, ext, hfit, h2⟩
        · rw [if_neg hbig] at hmem
          cases hup : env.imgbbResult with
          | ok d =>
            rw [hup] at hmem
            simp at hmem
          | error e =>
            rw [hup] at hmem
            rcases hfall [ProviderCall.imgbb jpeg_bytes (the_id ++ ".jpg")] _ hmem with
              h | ⟨fitted, ext, hfit, h⟩
            · simp at h
            · injection h with h1 h2
              exact ⟨fitted, ext, hfit, h2⟩

/-- Witness for `c2_filenames`: the primary call name at a concrete accepted
upload equals `<identifier>.jpg`. -/
theorem c2_witness : "UZ001450.jpg" = "UZ001450" ++ ".jpg" :=
  (c2_filenames envOkImgbb (some [1]) "UZ001450" "UZ001450" (by decide)).1
    [7] "UZ001450.jpg" (by decide)

/-- Claim C9: in a session holding a (non-empty) pending image, a text that
fails validation produces exactly the error reply, leaves the pending bytes
byte-for-byte unchanged and the session still awaiting an identifier, and
submits no provider call. -/
theorem c9_invalid_id_preserves_pending (env : HandleEnv) (pending : List Nat)
    (text : String) (hne : pending ≠ []) (hid : sanitize_id text = none) :
    handle_id env (some pending) text = ⟨some pending, [invalidIdReply], []⟩ := by
  unfold handle_id
  have hp : pendingFalsy (some pending) = false := by
    simp [pendingFalsy, hne]
  rw [hp]
  simp [hid]

/-- Witness for `c9_invalid_id_preserves_pending`: the spec's scenario B
text `"bad id!"` against a concrete pending byte. -/
theorem c9_witness :
    handle_id envOkImgbb (some [1]) "bad id!" = ⟨some [1], [invalidIdReply], []⟩ :=
  c9_invalid_id_preserves_pending envOkImgbb [1] "bad id!" (by decide) (by decide)

/-! ## Startup configuration checks (src/app.py lines 22-30) -/

/-- The environment-variable values read at startup; `none` models an unset
variable (`os.getenv` returns `None`). -/
structure StartupEnv where
  bot_token : Option String
  imgbb_api_key : Option String
deriving DecidableEq

/-- Python truthiness of an environment value: unset or empty is falsy. -/
def envFalsy : Option String → Bool
  | none => true
  | some s => s.isEmpty

/-- The startup state when the process comes up: the warnings logged. -/
structure StartupState where
  warnings : List String
deriving DecidableEq

def imgbbKeyWarning : String :=
  "IMGBB_API_KEY не задан — основной провайдер работать не будет"

/-- Model of the module-level startup checks (src/app.py lines 22-30): a
falsy `BOT_TOKEN` raises `RuntimeError` (fatal), while a falsy
`IMGBB_API_KEY` only logs a warning and startup proceeds. -/
def startupCheck (e : StartupEnv) : Except String StartupState :=
  if envFalsy e.bot_token then
    Except.error "Не задана переменная окружения BOT_TOKEN"
  else
    Except.ok ⟨if envFalsy e.imgbb_api_key then [imgbbKeyWarning] else []⟩

/-- Claim C10 counterexample: with `BOT_TOKEN` set and `IMGBB_API_KEY`
absent, startup succeeds (logging only a warning) — the absence of the
primary-provider API key is not a fatal startup error. -/
theorem c10_counterexample :
    startupCheck ⟨some "token", none⟩ = Except.ok ⟨[imgbbKeyWarning]⟩ := rfl

/-- Claim C10 (amended): a missing or empty `BOT_TOKEN` is a fatal startup
error, but a missing `IMGBB_API_KEY` is not — the process starts and merely
logs a warning that the primary provider will not work. -/
theorem c10_startup (e : StartupEnv) :
    (envFalsy e.bot_token = true →
      startupCheck e = Except.error "Не задана переменная окружения BOT_TOKEN") ∧
    (envFalsy e.bot_token = false →
      startupCheck e
        = Except.ok ⟨if envFalsy e.imgbb_api_key then [imgbbKeyWarning] else []⟩) := by
  constructor
  · intro h
    simp [startupCheck, h]
  · intro h
    simp [startupCheck, h]

/-- Witness for `c10_startup`: both branches at concrete environments. -/
theorem c10_witness :
    startupCheck ⟨none, some "k"⟩
      = Except.error "Не задана переменная окружения BOT_TOKEN" :=
  (c10_startup ⟨none, some "k"⟩).1 rfl

end ImgbbBot
